import Mathlib

/-!
Verification of the pgtool / pg_tool PostgreSQL command-line utilities.

This file gives a shallow embedding of the repository's two source trees:

* `pgtool` (config.py, db.py, cli.py) — configuration merging, a psycopg2
  connection wrapper, and a one-shot CLI;
* `src/pg_tool/cli.py` — a psycopg3 client with CSV import/export and an
  interactive shell.

Driver behaviour (statement execution, descriptions, transactions) is
modelled explicitly: a connection carries the list of durably committed
statements and the list of statements pending in the open transaction;
`execute` appends to the pending list (or to the committed list in
autocommit mode) and `commit` flushes pending work, exactly as the
psycopg drivers behave for this code.
-/

/-- Association-list lookup used to model Python `dict` lookup
(first binding wins, mirroring a dict that holds each key once). -/
def alookup (k : String) : List (String × α) → Option α
  | [] => none
  | p :: rest => if p.1 = k then some p.2 else alookup k rest

/-- Python `x if x is not None else y` style choice on options. -/
def optOr (x y : Option α) : Option α :=
  match x with
  | some v => some v
  | none => y

/-! ## pgtool/config.py -/

/-- `DatabaseConfig` from pgtool/config.py: optional scalar connection
fields plus an open options map. -/
structure DatabaseConfig where
  host : Option String := none
  port : Option Int := none
  user : Option String := none
  password : Option String := none
  database : Option String := none
  dsn : Option String := none
  options : List (String × String) := []
  deriving DecidableEq

/-- Python `other or self` on an optional string field: the override wins
only when it is truthy (not `None` and not the empty string). -/
def pyOrStr (other self : Option String) : Option String :=
  match other with
  | some s => if s = "" then self else some s
  | none => self

/-- Python `other or self` on an optional int field: the override wins
only when it is truthy (not `None` and not `0`). -/
def pyOrInt (other self : Option Int) : Option Int :=
  match other with
  | some n => if n = 0 then self else some n
  | none => self

/-- Python `\x7b**self, **other\x7d` dict merge: keys of `self` keep their
position but take the value from `other` when present; keys only in
`other` are appended. -/
def dictUpdate (a b : List (String × String)) : List (String × String) :=
  a.map (fun p => match alookup p.1 b with
    | some v => (p.1, v)
    | none => p)
  ++ b.filter (fun p => (alookup p.1 a).isNone)

/-- `DatabaseConfig.merged_with`: a new config where `other` overrides
`self`, field by field via Python `or`, options via dict merge. -/
def DatabaseConfig.merged_with (self other : DatabaseConfig) : DatabaseConfig where
  host := pyOrStr other.host self.host
  port := pyOrInt other.port self.port
  user := pyOrStr other.user self.user
  password := pyOrStr other.password self.password
  database := pyOrStr other.database self.database
  dsn := pyOrStr other.dsn self.dsn
  options := dictUpdate self.options other.options

/-- The all-unset configuration `DatabaseConfig()`. -/
def emptyConfig : DatabaseConfig := {}

/-- `merge_configs`: fold a list of configurations into one, later
entries winning. -/
def merge_configs (configs : List DatabaseConfig) : DatabaseConfig :=
  configs.foldl DatabaseConfig.merged_with emptyConfig

/-- Specification-side combinator: keep the later value whenever it is
present at all. -/
def lastSetStep (acc x : Option α) : Option α :=
  match x with
  | some v => some v
  | none => acc

/-- Specification-side reading of the merge rule: the value of the last
source in the list that set the field (`some`), else `none`. -/
def lastSet (xs : List (Option α)) : Option α :=
  xs.foldl lastSetStep none

/-- Truthiness normalisation for string fields: an empty string counts
as unset. -/
def truthyStr (o : Option String) : Option String :=
  match o with
  | some s => if s = "" then none else some s
  | none => none

/-- Truthiness normalisation for int fields: zero counts as unset. -/
def truthyInt (o : Option Int) : Option Int :=
  match o with
  | some n => if n = 0 then none else some n
  | none => none

/-! ## pgtool/config.py: load_config and from_mapping -/

/-- A value inside a parsed TOML `[database]` section. An `options`
entry carries its (already stringified) sub-table. -/
inductive TomlVal where
  | vStr (s : String)
  | vInt (n : Int)
  | vDict (entries : List (String × String))
  deriving DecidableEq

/-- A parsed `[database]` section: a mapping from keys to TOML values. -/
abbrev TomlDict := List (String × TomlVal)

/-- Python `mapping.get(key) or None` for the string-typed scalar
fields: a missing key, a non-string value or an empty string all
yield `None`. -/
def strField (m : TomlDict) (k : String) : Option String :=
  match alookup k m with
  | some (TomlVal.vStr s) => if s = "" then none else some s
  | _ => none

/-- Python `int(s)`: parse an integer after stripping whitespace,
raising `ValueError` on failure. -/
def pyInt (s : String) : Except String Int :=
  match s.trim.toInt? with
  | some n => Except.ok n
  | none => Except.error "invalid literal for int"

/-- The `port` conversion of `DatabaseConfig.from_mapping`: digit
strings and ints convert, a missing key gives `None`, any other string
goes through `int()` and may raise. -/
def portFrom (v : Option TomlVal) : Except String (Option Int) :=
  match v with
  | none => Except.ok none
  | some (TomlVal.vInt n) => Except.ok (some n)
  | some (TomlVal.vStr s) =>
      match pyInt s with
      | Except.ok n => Except.ok (some n)
      | Except.error e => Except.error e
  | some (TomlVal.vDict _) => Except.error "int of dict"

/-- `DatabaseConfig.from_mapping`: build a configuration from a raw
mapping; non-dict `options` become empty, falsy scalars become `None`,
and an unconvertible port raises. -/
def from_mapping (m : TomlDict) : Except String DatabaseConfig :=
  let options := match alookup "options" m with
    | some (TomlVal.vDict d) => d
    | _ => []
  match portFrom (alookup "port" m) with
  | Except.error e => Except.error e
  | Except.ok port =>
      Except.ok { host := strField m "host"
                  port := port
                  user := strField m "user"
                  password := strField m "password"
                  database := strField m "database"
                  dsn := strField m "dsn"
                  options := options }

/-- A config file as seen after `tomllib.load`: either it parses and has
a `[database]` dict section, or it parses without one. -/
inductive TomlTop where
  | withDatabase (dbSection : TomlDict)
  | withoutDatabase
  deriving DecidableEq

/-- A file system for config loading: `none` means no regular file at
that path. -/
abbrev ConfigFS := String → Option TomlTop

/-- `DEFAULT_CONFIG_LOCATIONS`: cwd, home dot-file, XDG config file. -/
def DEFAULT_CONFIG_LOCATIONS : List String :=
  ["./pgtool.toml", "~/.pgtool.toml", "~/.config/pgtool/config.toml"]

/-- The candidate loop of `load_config`: return the config of the first
existing file, raising when a found file lacks the `[database]`
section; an empty candidate list yields `DatabaseConfig()`. -/
def loadFirst (fs : ConfigFS) : List String → Except String DatabaseConfig
  | [] => Except.ok emptyConfig
  | c :: rest =>
      match fs c with
      | none => loadFirst fs rest
      | some (TomlTop.withoutDatabase) =>
          Except.error "Configuration file missing database section"
      | some (TomlTop.withDatabase sec) => from_mapping sec

/-- `load_config`: an explicit path replaces the default candidate
list; the first existing candidate is loaded. -/
def load_config (fs : ConfigFS) (path : Option String) : Except String DatabaseConfig :=
  loadFirst fs (match path with
    | some p => [p]
    | none => DEFAULT_CONFIG_LOCATIONS)

/-! ## Driver and transaction model -/

/-- A database connection as the drivers expose it to this code: an
autocommit flag, the statements whose effects are durably committed,
and the statements executed in the currently open transaction.
`execute` appends to `pending` (or straight to `committed` in
autocommit mode); `commit` makes the pending work durable; pending
work that is never committed is rolled back when the connection goes
away. -/
structure Conn where
  autocommit : Bool
  committed : List String
  pending : List String
  deriving DecidableEq

/-- `cursor.execute(stmt)` on the transaction state. -/
def execStmt (c : Conn) (stmt : String) : Conn :=
  if c.autocommit then { c with committed := c.committed ++ [stmt] }
  else { c with pending := c.pending ++ [stmt] }

/-- `connection.commit()`. -/
def commitConn (c : Conn) : Conn :=
  { c with committed := c.committed ++ c.pending, pending := [] }

/-- A fresh non-autocommit connection, as `psycopg2.connect` returns. -/
def freshConn : Conn := { autocommit := false, committed := [], pending := [] }

/-- A row of query results (values already stringified). -/
abbrev Row := List String

/-- The result-shape side of the driver: for a statement and its
parameters, the cursor description (`none` for DDL/DML, otherwise the
column list) and the fetchable rows. -/
abbrev Driver := String → List String → Option (List String) × List Row

/-! ## pgtool/db.py: DatabaseConnection -/

/-- The connection-handle state of `DatabaseConnection`: the lazily
created psycopg2 connection (identified by a number) or `none` after
`close()`/before first use, plus a supply of fresh handles. -/
structure DbConnState where
  conn : Option Nat
  nextId : Nat
  deriving DecidableEq

/-- `DatabaseConnection.connect`: reuse the live connection, or open a
new one when there is none. -/
def dbconnect (s : DbConnState) : Nat × DbConnState :=
  match s.conn with
  | some c => (c, s)
  | none => (s.nextId, { conn := some s.nextId, nextId := s.nextId + 1 })

/-- `DatabaseConnection.close`: close and drop the handle if live,
otherwise do nothing. -/
def dbclose (s : DbConnState) : DbConnState :=
  match s.conn with
  | some _ => { s with conn := none }
  | none => s

/-- `DatabaseConnection.cursor`: acquire a cursor on the connection
returned by `connect` (never an error in the code). -/
def dbcursor (s : DbConnState) : Nat × DbConnState :=
  dbconnect s

/-- Python truthiness of `cursor.description`: a tuple that is neither
`None` nor empty. -/
def descTruthy (d : Option (List String)) : Bool :=
  match d with
  | some cols => !cols.isEmpty
  | none => false

/-- `DatabaseConnection.run_query`: execute, fetch columns and rows
when asked and a description exists, and commit exactly when
`fetch` is false. -/
def run_query (driver : Driver) (conn : Conn) (query : String)
    (params : List String) (fetch : Bool) :
    (List String × List Row) × Conn :=
  let res := driver query params
  let conn := execStmt conn query
  let out := if fetch && descTruthy res.1 then (res.1.getD [], res.2) else ([], [])
  let conn := if !fetch then commitConn conn else conn
  (out, conn)

/-! ## File system model for CSV export -/

/-- A destination path split into its parent directory and file name,
as `Path.parent` sees it. -/
structure FPath where
  parent : String
  name : String
  deriving DecidableEq

/-- A file system: existing directories and CSV files (each file a list
of CSV records). -/
structure FS where
  dirs : List String
  files : List ((String × String) × List (List String))
  deriving DecidableEq

/-- Create the parent directory (`mkdir(parents=True, exist_ok=True)`). -/
def mkdirParent (fs : FS) (p : FPath) : FS :=
  { fs with dirs := fs.dirs ++ [p.parent] }

/-- Write a file, replacing previous content. -/
def writeFile (fs : FS) (p : FPath) (content : List (List String)) : FS :=
  { fs with files := ((p.parent, p.name), content) ::
      fs.files.filter (fun e => e.1 ≠ (p.parent, p.name)) }

/-- Lookup of a file entry by path. -/
def fileLookup : List ((String × String) × List (List String)) → FPath → Option (List (List String))
  | [], _ => none
  | e :: rest, q => if e.1 = (q.parent, q.name) then some e.2 else fileLookup rest q

/-- Read a file back. -/
def readFile (fs : FS) (p : FPath) : Option (List (List String)) :=
  fileLookup fs.files p

/-- Whether `open(path, "w")` can succeed: the parent directory must
exist (the empty parent stands for the current directory). -/
def canOpenWrite (fs : FS) (p : FPath) : Bool :=
  p.parent = "" || fs.dirs.contains p.parent

/-- `DatabaseConnection.export_to_csv`: run the query with fetch, fail
when no columns came back, otherwise create missing parent directories
and write the header row followed by the result rows. -/
def export_to_csv (driver : Driver) (conn : Conn) (query : String)
    (params : List String) (destination : FPath) (fs : FS) :
    Except String (FPath × FS × Conn) :=
  let r := run_query driver conn query params true
  let columns := r.1.1
  let rows := r.1.2
  if columns = [] then Except.error "Query did not return any data to export"
  else
    let fs := mkdirParent fs destination
    let fs := writeFile fs destination (columns :: rows)
    Except.ok (destination, fs, r.2)

/-! ## src/pg_tool/cli.py: DatabaseClient helpers -/

/-- `_parse_table_name`: split on the first dot, defaulting the schema
to `public`. -/
def parse_table_name (table : String) : String × String :=
  if table.contains '.' then
    match table.splitOn "." with
    | [] => ("public", table)
    | s :: rest => (s, String.intercalate "." rest)
  else ("public", table)

/-- psycopg identifier quoting used by `sql.Identifier`. -/
def quoteIdent (s : String) : String := "\"" ++ s ++ "\""

/-- The composed `TRUNCATE TABLE schema.name` statement. -/
def truncateStmt (schema name : String) : String :=
  "TRUNCATE TABLE " ++ quoteIdent schema ++ "." ++ quoteIdent name

/-- The composed parameterized insert statement reused across rows. -/
def insertStmt (schema name : String) (headers : List String) : String :=
  "INSERT INTO " ++ quoteIdent schema ++ "." ++ quoteIdent name ++ " (" ++
    String.intercalate ", " (headers.map quoteIdent) ++ ") VALUES (" ++
    String.intercalate ", " (headers.map (fun _ => "%s")) ++ ")"

/-- The composed `SELECT * FROM schema.name` statement of `export_table`. -/
def selectAllStmt (schema name : String) : String :=
  "SELECT * FROM " ++ quoteIdent schema ++ "." ++ quoteIdent name

/-- The Python exceptions this layer can surface: the CSV iterator
exhaustion from `next(reader)` on a header-less file, or a
`psycopg.Error` raised by the driver. -/
inductive PyExc where
  | stopIteration
  | psycopgError (msg : String)
  deriving DecidableEq

/-- Whether the surrounding CLI/shell `except psycopg.Error` handler
catches the exception. `StopIteration` is not caught anywhere. -/
def caughtByShell : PyExc → Bool
  | PyExc.stopIteration => false
  | PyExc.psycopgError _ => true

/-- `DatabaseClient.import_csv` over the parsed CSV records: a missing
header raises `StopIteration` before touching the database; an optional
truncate executes on the shared connection; `executemany` of the
composed insert runs every data row (erroring on an empty column list
or a row whose field count differs from the placeholder count) and the
single commit happens only after it succeeds. -/
def import_csv (conn : Conn) (csvRows : List (List String)) (truncate : Bool)
    (schema name : String) : Conn × Except PyExc Nat :=
  match csvRows with
  | [] => (conn, Except.error PyExc.stopIteration)
  | headers :: values =>
      let conn := if truncate then execStmt conn (truncateStmt schema name) else conn
      if values = [] then
        (commitConn conn, Except.ok 0)
      else if headers = [] then
        (conn, Except.error (PyExc.psycopgError "syntax error in insert"))
      else if values.all (fun r => r.length == headers.length) then
        (commitConn (execStmt conn (insertStmt schema name headers)), Except.ok values.length)
      else
        (conn, Except.error (PyExc.psycopgError "the query has a parameter mismatch"))

/-- A `dict_row` result row: column name to nullable value. -/
abbrev DictRow := List (String × Option String)

/-- A psycopg cursor after `execute`: description and dict rows. -/
structure PgCursor where
  description : Option (List String)
  dictRows : List DictRow

/-- The pg_tool driver: statement and parameters to a cursor. -/
abbrev PgDriver := String → List String → PgCursor

/-- `DatabaseClient.export_table`: select everything, take the headers
from `cursor.description or ()`, and silently return when there are
none; otherwise open the destination for writing (no parent directory
is created, so a missing parent fails) and write the header row
followed by one CSV record per result row. Because the rows are
`dict_row` dictionaries, iterating them for `writerows` yields their
keys. -/
def export_table (driver : PgDriver) (schema name : String) (path : FPath)
    (fs : FS) : Except String FS :=
  let cur := driver (selectAllStmt schema name) []
  let headers := (cur.description).getD []
  let rows := cur.dictRows
  if headers = [] then Except.ok fs
  else if canOpenWrite fs path then
    Except.ok (writeFile fs path (headers :: rows.map (fun r => r.map (fun p => p.1))))
  else Except.error "FileNotFoundError"

/-! ## src/pg_tool/cli.py: format_table and the interactive shell -/

/-- Python `"" if value is None else str(value)`. -/
def pyStr (v : Option String) : String :=
  match v with
  | none => ""
  | some s => s

/-- Python `str.ljust`. -/
def ljust (s : String) (w : Nat) : String :=
  s ++ String.mk (List.replicate (w - s.length) ' ')

/-- Column widths after scanning one row (`widths[i] = max(widths[i], len(row[i]))`). -/
def updWidths (ws : List Nat) (row : List String) : List Nat :=
  (ws.zipWith (fun w v => max w v.length) row) ++ ws.drop row.length

/-- `format_table`: the plain-text table renderer of pg_tool. -/
def format_table (headers : List String) (rows : List (List (Option String))) : String :=
  if headers = [] then "(empty result)"
  else
    let strRows := rows.map (fun row => row.map pyStr)
    let widths := strRows.foldl updWidths (headers.map String.length)
    let fmtRow := fun (row : List String) =>
      String.intercalate " | " (row.zipWith ljust widths)
    let line := String.intercalate "-+-" (widths.map (fun w => String.mk (List.replicate w '-')))
    String.intercalate "\n" (fmtRow headers :: line :: strRows.map fmtRow)

/-- The abstract `DatabaseClient` the shell talks to: each helper either
returns its value or raises a `psycopg.Error` (carried as a message). -/
structure Client where
  list_tables : Option String → Except String (List String)
  describe_table : String → Except String (List DictRow)
  run_query : String → Except String (List String × List (List (Option String)))
  export_table : String → String → Except String Unit
  import_csv : String → String → Bool → Except String Nat

/-- Python `str.strip()`: drop leading and trailing whitespace. -/
def pyStrip (s : String) : String :=
  String.mk (((s.data.dropWhile Char.isWhitespace).reverse.dropWhile
    Char.isWhitespace).reverse)

/-- Splitter for Python `str.split()`: cut a character list at runs of
whitespace, dropping empty tokens; `acc` holds the reversed current
token. -/
def wordsAux : List Char → List Char → List (List Char)
  | [], acc => if acc = [] then [] else [acc.reverse]
  | ch :: rest, acc =>
      if Char.isWhitespace ch then
        if acc = [] then wordsAux rest []
        else acc.reverse :: wordsAux rest []
      else wordsAux rest (ch :: acc)

/-- `command.split()`: whitespace tokenisation dropping empty tokens. -/
def parseParts (command : String) : List String :=
  (wordsAux command.data []).map String.mk

/-- The fixed column list the `describe` branch prints. -/
def describeHeaders : List String :=
  ["column_name", "data_type", "is_nullable", "column_default"]

/-- `InteractiveShell.handle_command`: tokenize, dispatch on the command
word inside a try block, and turn any `psycopg.Error` into a single
printed `Error:` line. The returned list is the sequence of printed
outputs. -/
def handle_command (client : Client) (command : String) : List String :=
  match parseParts command with
  | [] => []
  | cmd :: args =>
      let attempt : Except String (List String) :=
        if cmd = "tables" then
          match client.list_tables args.head? with
          | Except.ok tables =>
              Except.ok [if tables = [] then "(no tables found)"
                         else String.intercalate "\n" tables]
          | Except.error e => Except.error e
        else if cmd = "describe" then
          match args.head? with
          | none => Except.ok ["Usage: describe <schema.table>"]
          | some t =>
              match client.describe_table t with
              | Except.ok [] => Except.ok ["Table not found or has no columns."]
              | Except.ok columns =>
                  let rows := columns.map (fun col =>
                    describeHeaders.map (fun h => (alookup h col).getD none))
                  Except.ok [format_table describeHeaders rows]
              | Except.error e => Except.error e
        else if cmd = "query" then
          if args = [] then Except.ok ["Usage: query <sql>"]
          else
            match client.run_query (String.intercalate " " args) with
            | Except.ok r => Except.ok [format_table r.1 r.2]
            | Except.error e => Except.error e
        else if cmd = "export" then
          match args with
          | [table, pathStr] =>
              match client.export_table table pathStr with
              | Except.ok _ => Except.ok ["Exported " ++ table ++ " to " ++ pathStr]
              | Except.error e => Except.error e
          | _ => Except.ok ["Usage: export <schema.table> <path>"]
        else if cmd = "import" then
          match args with
          | table :: pathStr :: restArgs =>
              match client.import_csv table pathStr (restArgs.contains "--truncate") with
              | Except.ok count =>
                  Except.ok ["Imported " ++ toString count ++ " rows into " ++ table]
              | Except.error e => Except.error e
          | _ => Except.ok ["Usage: import <schema.table> <path> [--truncate]"]
        else
          Except.ok ["Unknown command: " ++ cmd ++ ". Type help for instructions."]
      match attempt with
      | Except.ok outs => outs
      | Except.error e => ["Error: " ++ e]

/-- The text printed by `print_help` (apostrophes elided). -/
def helpText : String :=
  "Available commands: tables, describe, query, export, " ++
  "import, help, quit/exit"

/-- The loop body of `InteractiveShell.cmdloop` over a finite list of
input lines; running out of lines models `EOFError`, which prints a
final blank line and breaks. A stripped blank line is skipped, `quit`
and `exit` break, `help` prints the catalog, everything else goes to
`handle_command` and the loop continues. -/
def cmdloop_steps (client : Client) : List String → List String
  | [] => [""]
  | l :: rest =>
      let command := pyStrip l
      if command = "" then cmdloop_steps client rest
      else if command = "quit" || command = "exit" then []
      else if command = "help" then helpText :: cmdloop_steps client rest
      else handle_command client command ++ cmdloop_steps client rest

/-- `InteractiveShell.cmdloop`: the greeting line, then the loop. -/
def cmdloop (client : Client) (inputs : List String) : List String :=
  "Type help for a list of commands. Type quit to exit." :: cmdloop_steps client inputs

/-! ## Entry points: pgtool main and pg_tool run_cli -/

/-- `pgtool.cli.main`: everything (argument handling, config resolution
and the command dispatch, abstracted here as one fallible action that
yields the printed output) runs inside one try block; any caught
exception prints a single message on stderr and yields exit code 1,
success yields 0. -/
def pgtool_main (body : Except String (List String)) : Nat × List String :=
  match body with
  | Except.ok outs => (0, outs)
  | Except.error e => (1, ["stderr: Ошибка: " ++ e])

/-- The parsed pg_tool subcommand. -/
inductive CliCommand where
  | shell
  | tables (schema : Option String)
  | describe (table : String)
  | query (sql : String)
  | export (table path : String)
  | importCmd (table path : String) (truncate : Bool)
  deriving DecidableEq

/-- `pg_tool.cli.run_cli` after argument parsing: connect (a failure is
a `psycopg.Error`), dispatch the subcommand (no subcommand means the
interactive shell), and catch any `psycopg.Error` by printing to
stderr and returning exit code 2; `describe` of an unknown table
returns 1. The result is the exit code and the printed lines. -/
def run_cli (mkClient : Except String Client) (cmd : Option CliCommand)
    (shellInputs : List String) : Nat × List String :=
  match mkClient with
  | Except.error e => (2, ["stderr: Database error: " ++ e])
  | Except.ok client =>
      match cmd with
      | none => (0, cmdloop client shellInputs)
      | some CliCommand.shell => (0, cmdloop client shellInputs)
      | some (CliCommand.tables schema) =>
          match client.list_tables schema with
          | Except.ok tables =>
              (0, [if tables = [] then "(no tables found)"
                   else String.intercalate "\n" tables])
          | Except.error e => (2, ["stderr: Database error: " ++ e])
      | some (CliCommand.describe t) =>
          match client.describe_table t with
          | Except.ok [] => (1, ["Table not found or has no columns."])
          | Except.ok columns =>
              let rows := columns.map (fun col =>
                describeHeaders.map (fun h => (alookup h col).getD none))
              (0, [format_table describeHeaders rows])
          | Except.error e => (2, ["stderr: Database error: " ++ e])
      | some (CliCommand.query sql) =>
          match client.run_query sql with
          | Except.ok r => (0, [format_table r.1 r.2])
          | Except.error e => (2, ["stderr: Database error: " ++ e])
      | some (CliCommand.export table path) =>
          match client.export_table table path with
          | Except.ok _ => (0, ["Exported " ++ table ++ " to " ++ path])
          | Except.error e => (2, ["stderr: Database error: " ++ e])
      | some (CliCommand.importCmd table path trunc) =>
          match client.import_csv table path trunc with
          | Except.ok count => (0, ["Imported " ++ toString count ++ " rows into " ++ table])
          | Except.error e => (2, ["stderr: Database error: " ++ e])

/-- A concrete client for evaluating the shell and CLI on closed
inputs: schema helpers succeed with empty results, `run_query` raises
a database error. -/
def clientErr : Client where
  list_tables := fun _ => Except.ok []
  describe_table := fun _ => Except.ok []
  run_query := fun _ => Except.error "boom"
  export_table := fun _ _ => Except.ok ()
  import_csv := fun _ _ _ => Except.ok 0

/-! ## Helper lemmas -/

theorem optOr_none (x : Option α) : optOr x none = x := by
  cases x <;> rfl

theorem lastSetStep_truthyStr (acc : Option String) (o : Option String) :
    lastSetStep acc (truthyStr o) = pyOrStr o acc := by
  cases o with
  | none => rfl
  | some s =>
      by_cases h : s = "" <;> simp [truthyStr, pyOrStr, lastSetStep, h]

theorem lastSetStep_truthyInt (acc : Option Int) (o : Option Int) :
    lastSetStep acc (truthyInt o) = pyOrInt o acc := by
  cases o with
  | none => rfl
  | some n =>
      by_cases h : n = 0 <;> simp [truthyInt, pyOrInt, lastSetStep, h]

theorem alookup_append (k : String) (xs ys : List (String × α)) :
    alookup k (xs ++ ys) = optOr (alookup k xs) (alookup k ys) := by
  induction xs with
  | nil => simp [alookup, optOr]
  | cons p rest ih =>
      by_cases h : p.1 = k <;> simp [alookup, h, ih, optOr]

theorem alookup_map_update (k : String) (a b : List (String × String)) :
    alookup k (a.map (fun p => match alookup p.1 b with
      | some v => (p.1, v)
      | none => p)) =
    (alookup k a).map (fun w => (alookup k b).getD w) := by
  induction a with
  | nil => simp [alookup]
  | cons p rest ih =>
      by_cases h : p.1 = k
      · subst h
        cases hb : alookup p.1 b <;> simp [alookup, hb]
      · cases hb : alookup p.1 b <;> simp [alookup, hb, h, ih]

theorem alookup_filter_not_in (k : String) (b a : List (String × String)) :
    alookup k (b.filter (fun p => (alookup p.1 a).isNone)) =
    (if (alookup k a).isNone then alookup k b else none) := by
  induction b with
  | nil => simp [alookup]
  | cons q rest ih =>
      by_cases hk : q.1 = k
      · subst hk
        cases ha : alookup q.1 a <;> simp [alookup, List.filter, ha, ih]
      · cases hq : (alookup q.1 a).isNone <;>
          simp [alookup, List.filter, hq, hk, ih]

theorem alookup_dictUpdate (k : String) (a b : List (String × String)) :
    alookup k (dictUpdate a b) = optOr (alookup k b) (alookup k a) := by
  unfold dictUpdate
  rw [alookup_append, alookup_map_update, alookup_filter_not_in]
  cases ha : alookup k a <;> cases hb : alookup k b <;> simp [optOr]

/-! ## C1 -/

/-- C1, counterexample: the claim says every scalar field of the merged
result equals the value of the last configuration that explicitly set
it. Setting `host` explicitly to the empty string in the later (env)
source does not override the earlier (file) value, because
`merged_with` uses Python `or`, which skips falsy overrides. -/
theorem merged_host_ignores_falsy_override :
    (merge_configs [{ host := some "a" }, { host := some "" }, {}]).host = some "a" ∧
    lastSet [(some "a" : Option String), some "", none] = some "" ∧
    (merge_configs [{ host := some "a" }, { host := some "" }, {}]).host ≠
      lastSet [(some "a" : Option String), some "", none] := by
  refine ⟨rfl, rfl, ?_⟩
  decide

/-- C1, amended: each scalar field of `merge_configs [file, env, cli]`
equals the value of the last configuration that set the field to a
truthy value (non-`None`, non-empty, non-zero); fields set by no
configuration to a truthy value remain unset; the options maps merge
key-wise with later sources overriding individual keys. -/
theorem merge_configs_last_truthy_setter (f e c : DatabaseConfig) :
    (merge_configs [f, e, c]).host =
      lastSet [truthyStr f.host, truthyStr e.host, truthyStr c.host] ∧
    (merge_configs [f, e, c]).port =
      lastSet [truthyInt f.port, truthyInt e.port, truthyInt c.port] ∧
    (merge_configs [f, e, c]).user =
      lastSet [truthyStr f.user, truthyStr e.user, truthyStr c.user] ∧
    (merge_configs [f, e, c]).password =
      lastSet [truthyStr f.password, truthyStr e.password, truthyStr c.password] ∧
    (merge_configs [f, e, c]).database =
      lastSet [truthyStr f.database, truthyStr e.database, truthyStr c.database] ∧
    (merge_configs [f, e, c]).dsn =
      lastSet [truthyStr f.dsn, truthyStr e.dsn, truthyStr c.dsn] ∧
    ∀ k, alookup k (merge_configs [f, e, c]).options =
      optOr (alookup k c.options) (optOr (alookup k e.options) (alookup k f.options)) := by
  refine ⟨?_, ?_, ?_, ?_, ?_, ?_, ?_⟩
  · simp [merge_configs, DatabaseConfig.merged_with, emptyConfig, lastSet,
      lastSetStep_truthyStr]
  · simp [merge_configs, DatabaseConfig.merged_with, emptyConfig, lastSet,
      lastSetStep_truthyInt]
  · simp [merge_configs, DatabaseConfig.merged_with, emptyConfig, lastSet,
      lastSetStep_truthyStr]
  · simp [merge_configs, DatabaseConfig.merged_with, emptyConfig, lastSet,
      lastSetStep_truthyStr]
  · simp [merge_configs, DatabaseConfig.merged_with, emptyConfig, lastSet,
      lastSetStep_truthyStr]
  · simp [merge_configs, DatabaseConfig.merged_with, emptyConfig, lastSet,
      lastSetStep_truthyStr]
  · intro k
    simp [merge_configs, DatabaseConfig.merged_with, emptyConfig,
      alookup_dictUpdate, alookup, optOr_none]

/-! ## C2 -/

/-- C2: for every statement, `run_query` with `fetch = false` returns
the no-result value (empty columns and empty rows, never column
metadata) and leaves the connection committed after the call: no
pending transaction work remains and the executed statement is among
the committed ones. -/
theorem run_query_no_fetch_commits (driver : Driver) (conn : Conn)
    (q : String) (p : List String) :
    (run_query driver conn q p false).1 = ([], []) ∧
    (run_query driver conn q p false).2.pending = [] ∧
    q ∈ (run_query driver conn q p false).2.committed := by
  cases h : conn.autocommit <;>
    simp [run_query, execStmt, commitConn, h]

/-! ## C10 -/

/-- C10: a statement run through `run_query` with `fetch = true` that
produces no column metadata returns the empty pair and issues no
commit: the durably committed statements are unchanged and the
statement merely joins the pending (uncommitted) transaction of the
non-autocommit psycopg2 connection. -/
theorem run_query_fetch_no_description (driver : Driver) (conn : Conn)
    (q : String) (p : List String)
    (hdesc : (driver q p).1 = none) (hac : conn.autocommit = false) :
    (run_query driver conn q p true).1 = ([], []) ∧
    (run_query driver conn q p true).2.committed = conn.committed ∧
    (run_query driver conn q p true).2.pending = conn.pending ++ [q] := by
  simp [run_query, execStmt, descTruthy, hdesc, hac]

/-- C10, witness. -/
theorem run_query_fetch_no_description_witness :
    (run_query (fun _ _ => (none, [])) freshConn "CREATE TABLE t (x int)" [] true).1
      = ([], []) ∧
    (run_query (fun _ _ => (none, [])) freshConn "CREATE TABLE t (x int)" [] true).2.committed
      = freshConn.committed ∧
    (run_query (fun _ _ => (none, [])) freshConn "CREATE TABLE t (x int)" [] true).2.pending
      = freshConn.pending ++ ["CREATE TABLE t (x int)"] :=
  run_query_fetch_no_description (fun _ _ => (none, [])) freshConn
    "CREATE TABLE t (x int)" [] rfl rfl

/-! ## C3 -/

/-- C3, counterexample: the claim says `load_config` fails when an
explicitly supplied path does not exist; in the code the candidate
loop simply finds no file and falls through to the empty
configuration, succeeding. -/
theorem load_config_missing_explicit_path_ok :
    load_config (fun _ => none) (some "pgtool.toml") = Except.ok emptyConfig ∧
    (load_config (fun _ => none) (some "pgtool.toml")).isOk = true :=
  ⟨rfl, rfl⟩

/-- C3, amended: a missing file at an explicitly supplied path is
silently skipped exactly like a missing default-location file: in both
cases `load_config` succeeds with the empty configuration. -/
theorem load_config_missing_files_empty :
    (∀ (fs : ConfigFS) (p : String), fs p = none →
        load_config fs (some p) = Except.ok emptyConfig) ∧
    (∀ fs : ConfigFS, (∀ d ∈ DEFAULT_CONFIG_LOCATIONS, fs d = none) →
        load_config fs none = Except.ok emptyConfig) := by
  constructor
  · intro fs p h
    simp [load_config, loadFirst, h]
  · intro fs h
    have h1 := h "./pgtool.toml" (by simp [DEFAULT_CONFIG_LOCATIONS])
    have h2 := h "~/.pgtool.toml" (by simp [DEFAULT_CONFIG_LOCATIONS])
    have h3 := h "~/.config/pgtool/config.toml" (by simp [DEFAULT_CONFIG_LOCATIONS])
    simp [load_config, DEFAULT_CONFIG_LOCATIONS, loadFirst, h1, h2, h3]

/-- C3, witness. -/
theorem load_config_missing_files_empty_witness :
    load_config (fun _ => none) (some "a.toml") = Except.ok emptyConfig ∧
    load_config (fun _ => none) none = Except.ok emptyConfig :=
  ⟨load_config_missing_files_empty.1 _ "a.toml" rfl,
   load_config_missing_files_empty.2 _ (fun _ _ => rfl)⟩

/-! ## C4 -/

/-- C4, counterexample: the claim says every operation after `close()`
fails with `SessionClosed`. On `DatabaseConnection`, acquiring a
cursor after closing an open connection succeeds: `cursor` calls
`connect`, which transparently opens a fresh connection (handle 1
here), and no closed-session error exists in the code. -/
theorem cursor_after_close_reconnects :
    dbcursor (dbclose (dbconnect { conn := none, nextId := 0 }).2) =
      (1, { conn := some 1, nextId := 2 }) := rfl

/-- C4, amended: operations on `DatabaseConnection` after `close()` do
not fail; cursor acquisition (and hence `run_query`) transparently
opens a fresh connection handle, for every starting state. -/
theorem close_then_cursor_fresh_connection (s : DbConnState) :
    dbcursor (dbclose s) =
      (s.nextId, { conn := some s.nextId, nextId := s.nextId + 1 }) := by
  cases h : s.conn <;> simp [dbcursor, dbclose, dbconnect, h]

/-! ## C5 -/

/-- C5, counterexample: the claim says a missing/empty header or a row
field-count mismatch fails with `ImportError`. The code performs no
shape validation of its own: a header-less (empty) file raises
`StopIteration` from `next(reader)` — an exception the CLI/shell
`except psycopg.Error` boundary does not even catch — and a mismatched
row surfaces as a driver error from `executemany`; no `ImportError` is
raised anywhere. Zero rows are committed in both cases. -/
theorem csv_import_error_kinds :
    (import_csv freshConn [] false "public" "t").2 =
      Except.error PyExc.stopIteration ∧
    caughtByShell PyExc.stopIteration = false ∧
    (import_csv freshConn [["a", "b", "c"], ["1", "2"]] false "public" "t").2 =
      Except.error (PyExc.psycopgError "the query has a parameter mismatch") ∧
    (import_csv freshConn [["a", "b", "c"], ["1", "2"]] false "public" "t").1.committed
      = [] :=
  ⟨rfl, rfl, rfl, rfl⟩

/-- C5, amended: a CSV with no header record makes `import_csv` raise
the CSV iterator exhaustion (`StopIteration`), and an empty header or
a data row whose field count differs from the header's makes the batch
insert raise a driver error; in every failing case the single final
commit is never reached, so (on the default non-autocommit connection)
nothing new is committed — in particular zero data rows. -/
theorem csv_import_failure_commits_nothing (conn : Conn)
    (csvRows : List (List String)) (trunc : Bool) (schema name : String)
    (hac : conn.autocommit = false) :
    (csvRows = [] →
      import_csv conn csvRows trunc schema name =
        (conn, Except.error PyExc.stopIteration)) ∧
    (∀ headers values, csvRows = headers :: values → values ≠ [] →
      (headers = [] ∨ ¬ values.all (fun r => r.length == headers.length)) →
      ∃ m, (import_csv conn csvRows trunc schema name).2 =
          Except.error (PyExc.psycopgError m) ∧
        (import_csv conn csvRows trunc schema name).1.committed = conn.committed) := by
  constructor
  · intro h
    subst h
    simp [import_csv]
  · intro headers values hrows hne hbad
    subst hrows
    by_cases hh : headers = []
    · subst hh
      refine ⟨"syntax error in insert", ?_⟩
      cases trunc <;> simp [import_csv, hne, execStmt, hac]
    · rcases hbad with h0 | h1
      · exact absurd h0 hh
      · refine ⟨"the query has a parameter mismatch", ?_⟩
        cases trunc <;> simp [import_csv, hne, hh, h1, execStmt, hac]

/-- C5, witness. -/
theorem csv_import_failure_commits_nothing_witness :
    ∃ m, (import_csv freshConn [["a", "b", "c"], ["1", "2"]] false "public" "t").2 =
        Except.error (PyExc.psycopgError m) ∧
      (import_csv freshConn [["a", "b", "c"], ["1", "2"]] false "public" "t").1.committed =
        freshConn.committed :=
  (csv_import_failure_commits_nothing freshConn [["a", "b", "c"], ["1", "2"]]
      false "public" "t" rfl).2
    ["a", "b", "c"] [["1", "2"]] rfl (by decide) (Or.inr (by decide))

/-! ## C6 -/

/-- C6, counterexample: the claim says the truncate has its own
transaction boundary, so a failing batch insert leaves the table
truncated. In the code no commit separates the truncate from the
insert on the (default non-autocommit) connection: after the insert
fails, the truncate statement is still only pending in the open
transaction and nothing is committed, so it is rolled back together
with the failed import rather than surviving it. -/
theorem truncate_rolled_back_with_failed_insert :
    (import_csv freshConn [["a", "b", "c"], ["1", "2"]] true "public" "t").1 =
      { autocommit := false, committed := [],
        pending := [truncateStmt "public" "t"] } ∧
    (import_csv freshConn [["a", "b", "c"], ["1", "2"]] true "public" "t").2 =
      Except.error (PyExc.psycopgError "the query has a parameter mismatch") :=
  ⟨rfl, rfl⟩

/-- C6, amended: the truncate is a separate statement but shares the
connection's single transaction: on a non-autocommit connection a
failing batch insert leaves the truncate uncommitted (merely pending,
to be rolled back), and none of the insert's rows are committed. -/
theorem truncate_shares_transaction (conn : Conn) (headers : List String)
    (values : List (List String)) (schema name : String)
    (hac : conn.autocommit = false) (hne : values ≠ [])
    (hbad : headers = [] ∨ ¬ values.all (fun r => r.length == headers.length)) :
    (import_csv conn (headers :: values) true schema name).1.committed =
      conn.committed ∧
    (import_csv conn (headers :: values) true schema name).1.pending =
      conn.pending ++ [truncateStmt schema name] ∧
    ∃ m, (import_csv conn (headers :: values) true schema name).2 =
      Except.error (PyExc.psycopgError m) := by
  by_cases hh : headers = []
  · subst hh
    refine ⟨?_, ?_, "syntax error in insert", ?_⟩ <;>
      simp [import_csv, hne, execStmt, hac]
  · rcases hbad with h0 | h1
    · exact absurd h0 hh
    · refine ⟨?_, ?_, "the query has a parameter mismatch", ?_⟩ <;>
        simp [import_csv, hne, hh, h1, execStmt, hac]

/-- C6, witness. -/
theorem truncate_shares_transaction_witness :
    (import_csv freshConn [["a", "b"], ["1"]] true "public" "t2").1.committed =
      freshConn.committed ∧
    (import_csv freshConn [["a", "b"], ["1"]] true "public" "t2").1.pending =
      freshConn.pending ++ [truncateStmt "public" "t2"] ∧
    ∃ m, (import_csv freshConn [["a", "b"], ["1"]] true "public" "t2").2 =
      Except.error (PyExc.psycopgError m) :=
  truncate_shares_transaction freshConn ["a", "b"] [["1"]] "public" "t2"
    rfl (by decide) (Or.inr (by decide))

/-! ## C7 -/

theorem readFile_writeFile (fs : FS) (p : FPath) (content : List (List String)) :
    readFile (writeFile fs p content) p = some content := by
  simp [readFile, writeFile, fileLookup]

/-- C7, counterexample: the claim says every export with no column
metadata fails with `NoDataError` and that exports create missing
parent directories. `DatabaseClient.export_table` does neither: with
no column metadata it silently succeeds without touching the file
system, and when columns exist it never creates the missing parent
directory — opening the destination fails instead. -/
theorem export_table_no_columns_silent :
    export_table (fun _ _ => { description := none, dictRows := [] })
      "public" "t" { parent := "out", name := "f.csv" }
      { dirs := [], files := [] } =
      Except.ok { dirs := [], files := [] } ∧
    export_table (fun _ _ => { description := some ["a"], dictRows := [] })
      "public" "t" { parent := "out", name := "f.csv" }
      { dirs := [], files := [] } =
      Except.error "FileNotFoundError" :=
  ⟨rfl, rfl⟩

/-- C7, amended: `DatabaseConnection.export_to_csv` behaves as the
claim states — no column metadata raises the no-data error, otherwise
the destination's parent directory is created and the file holds the
header row followed by exactly the result rows in order. pg_tool's
`export_table`, by contrast, silently returns success without writing
anything when the statement produced no column metadata. -/
theorem export_to_csv_behavior :
    (∀ (driver : Driver) (conn : Conn) (q : String) (p : List String)
        (dest : FPath) (fs : FS),
      (run_query driver conn q p true).1.1 = [] →
      export_to_csv driver conn q p dest fs =
        Except.error "Query did not return any data to export") ∧
    (∀ (driver : Driver) (conn : Conn) (q : String) (p : List String)
        (dest : FPath) (fs : FS) (cols : List String) (rows : List Row),
      (run_query driver conn q p true).1 = (cols, rows) → cols ≠ [] →
      ∃ fs', export_to_csv driver conn q p dest fs =
          Except.ok (dest, fs', (run_query driver conn q p true).2) ∧
        readFile fs' dest = some (cols :: rows) ∧
        dest.parent ∈ fs'.dirs) ∧
    (∀ (pgdriver : PgDriver) (schema name : String) (path : FPath) (fs : FS),
      (pgdriver (selectAllStmt schema name) []).description = none →
      export_table pgdriver schema name path fs = Except.ok fs) := by
  refine ⟨?_, ?_, ?_⟩
  · intro driver conn q p dest fs h
    simp [export_to_csv, h]
  · intro driver conn q p dest fs cols rows h hne
    refine ⟨writeFile (mkdirParent fs dest) dest (cols :: rows), ?_, ?_, ?_⟩
    · simp [export_to_csv, h, hne]
    · exact readFile_writeFile _ _ _
    · simp [writeFile, mkdirParent]
  · intro pgdriver schema name path fs h
    simp [export_table, h]

/-- C7, witness. -/
theorem export_to_csv_behavior_witness :
    export_to_csv (fun _ _ => (none, [])) freshConn "DROP TABLE t" []
      { parent := "d", name := "f.csv" } { dirs := [], files := [] } =
      Except.error "Query did not return any data to export" ∧
    (∃ fs', export_to_csv (fun _ _ => (some ["x"], [["1"]])) freshConn
        "SELECT x FROM t" [] { parent := "d", name := "f.csv" }
        { dirs := [], files := [] } =
        Except.ok ({ parent := "d", name := "f.csv" }, fs',
          (run_query (fun _ _ => (some ["x"], [["1"]])) freshConn
            "SELECT x FROM t" [] true).2) ∧
      readFile fs' { parent := "d", name := "f.csv" } = some [["x"], ["1"]] ∧
      "d" ∈ fs'.dirs) ∧
    export_table (fun _ _ => { description := none, dictRows := [] })
      "public" "t" { parent := "d", name := "f.csv" }
      { dirs := [], files := [] } =
      Except.ok { dirs := [], files := [] } :=
  ⟨export_to_csv_behavior.1 (fun _ _ => (none, [])) freshConn "DROP TABLE t" []
      { parent := "d", name := "f.csv" } { dirs := [], files := [] } rfl,
   export_to_csv_behavior.2.1 (fun _ _ => (some ["x"], [["1"]])) freshConn
      "SELECT x FROM t" [] { parent := "d", name := "f.csv" }
      { dirs := [], files := [] } ["x"] [["1"]] rfl (by decide),
   export_to_csv_behavior.2.2 (fun _ _ => { description := none, dictRows := [] })
      "public" "t" { parent := "d", name := "f.csv" }
      { dirs := [], files := [] } rfl⟩

/-! ## C8 -/

/-- C8: in the interactive shell loop, a blank input line dispatches no
handler and produces no output; `quit` and `exit` both terminate the
loop (discarding remaining input); any other non-reserved line is
dispatched to `handle_command` and the loop continues afterwards; and
a database error raised during a `query` command is caught inside
`handle_command`, printing exactly one `Error:` line — so a failed
command never terminates the loop. -/
theorem cmdloop_dispatch_properties :
    (∀ (client : Client) (rest : List String) (l : String), pyStrip l = "" →
      cmdloop_steps client (l :: rest) = cmdloop_steps client rest) ∧
    (∀ (client : Client) (rest : List String) (l : String),
      pyStrip l = "quit" ∨ pyStrip l = "exit" →
      cmdloop_steps client (l :: rest) = []) ∧
    (∀ (client : Client) (rest : List String) (c : String),
      pyStrip c = c → c ≠ "" → c ≠ "quit" → c ≠ "exit" → c ≠ "help" →
      cmdloop_steps client (c :: rest) =
        handle_command client c ++ cmdloop_steps client rest) ∧
    (∀ (client : Client) (c : String) (args : List String) (e : String),
      parseParts c = "query" :: args → args ≠ [] →
      client.run_query (String.intercalate " " args) = Except.error e →
      handle_command client c = ["Error: " ++ e]) := by
  refine ⟨?_, ?_, ?_, ?_⟩
  · intro client rest l h
    simp [cmdloop_steps, h]
  · intro client rest l h
    rcases h with h | h <;> simp [cmdloop_steps, h]
  · intro client rest c h0 h1 h2 h3 h4
    simp [cmdloop_steps, h0, h1, h2, h3, h4]
  · intro client c args e hp hne hq
    simp [handle_command, hp, hne, hq]

/-- C8, witness. -/
theorem cmdloop_dispatch_properties_witness :
    cmdloop_steps clientErr ("" :: ["quit"]) = cmdloop_steps clientErr ["quit"] ∧
    cmdloop_steps clientErr ("quit" :: ["tables"]) = [] ∧
    cmdloop_steps clientErr ("query SELECT 1" :: []) =
      handle_command clientErr "query SELECT 1" ++ cmdloop_steps clientErr [] ∧
    handle_command clientErr "query SELECT 1" = ["Error: " ++ "boom"] :=
  ⟨cmdloop_dispatch_properties.1 clientErr ["quit"] "" (by decide),
   cmdloop_dispatch_properties.2.1 clientErr ["tables"] "quit" (Or.inl (by decide)),
   cmdloop_dispatch_properties.2.2.1 clientErr [] "query SELECT 1" (by decide)
     (by decide) (by decide) (by decide) (by decide),
   cmdloop_dispatch_properties.2.2.2 clientErr "query SELECT 1" ["SELECT", "1"]
     "boom" (by decide) (by decide) rfl⟩

/-! ## C9 -/

/-- C9, counterexample: the claim says the process exit status is only
ever 0 or 1. pg_tool's `run_cli` returns 2 on a caught database
error — here a failed connection attempt. -/
theorem run_cli_db_error_exit_two :
    run_cli (Except.error "connection refused") none [] =
      (2, ["stderr: Database error: connection refused"]) := rfl

/-- C9, amended: pgtool's `main` exits 0 on success and 1 on any caught
error; pg_tool's `run_cli` exits 0 on success, 1 when `describe`
finds no columns, and 2 on any caught database error — every exit
code is 0, 1 or 2, not only 0 and 1. -/
theorem cli_exit_codes :
    (∀ body : Except String (List String),
      (pgtool_main body).1 = 0 ∨ (pgtool_main body).1 = 1) ∧
    (∀ (e : String) (cmd : Option CliCommand) (ins : List String),
      run_cli (Except.error e) cmd ins =
        (2, ["stderr: Database error: " ++ e])) ∧
    (∀ (client : Client) (t : String) (ins : List String),
      client.describe_table t = Except.ok [] →
      run_cli (Except.ok client) (some (CliCommand.describe t)) ins =
        (1, ["Table not found or has no columns."])) ∧
    (∀ (mk : Except String Client) (cmd : Option CliCommand) (ins : List String),
      (run_cli mk cmd ins).1 = 0 ∨ (run_cli mk cmd ins).1 = 1 ∨
        (run_cli mk cmd ins).1 = 2) := by
  refine ⟨?_, ?_, ?_, ?_⟩
  · intro body
    cases body <;> simp [pgtool_main]
  · intro e cmd ins
    rfl
  · intro client t ins h
    simp [run_cli, h]
  · intro mk cmd ins
    rcases mk with e | client
    · simp [run_cli]
    · match cmd with
      | none => simp [run_cli]
      | some CliCommand.shell => simp [run_cli]
      | some (CliCommand.tables s) =>
          cases h : client.list_tables s <;> simp [run_cli, h]
      | some (CliCommand.describe t) =>
          cases h : client.describe_table t with
          | error e => simp [run_cli, h]
          | ok cols => cases cols <;> simp [run_cli, h]
      | some (CliCommand.query sql) =>
          cases h : client.run_query sql <;> simp [run_cli, h]
      | some (CliCommand.export t p) =>
          cases h : client.export_table t p <;> simp [run_cli, h]
      | some (CliCommand.importCmd t p tr) =>
          cases h : client.import_csv t p tr <;> simp [run_cli, h]

/-- C9, witness. -/
theorem cli_exit_codes_witness :
    run_cli (Except.ok clientErr) (some (CliCommand.describe "missing")) [] =
      (1, ["Table not found or has no columns."]) :=
  cli_exit_codes.2.2.1 clientErr "missing" [] rfl
